import Mathlib

/-!
Verification of the SAR-ADC conversion-result-processing firmware example
(main.c): the output-format transform, the voltage scaling, the pending/active
configuration state machine, and the terminal command intake are embedded as
Lean functions and their specified properties proved.
-/

namespace SarAdc

/-- Value of `UNSIGNED_RIGHT_ALIGNED` in the `OutputFmt` enum of main.c. -/
def UNSIGNED_RIGHT_ALIGNED : Int := 0

/-- Value of `SIGNED_RIGHT_ALIGNED` in the `OutputFmt` enum of main.c. -/
def SIGNED_RIGHT_ALIGNED : Int := 1

/-- Value of `LEFT_ALIGNED` in the `OutputFmt` enum of main.c. -/
def LEFT_ALIGNED : Int := 2

/-- The `AVERAGE_COUNT_MIN` macro of main.c. -/
def AVERAGE_COUNT_MIN : Int := 1

/-- The `AVERAGE_COUNT_MAX` macro of main.c. -/
def AVERAGE_COUNT_MAX : Int := 256

/-- The `BAND_GAP_MV` macro of main.c: internal band gap reference voltage in
millivolts. -/
def BAND_GAP_MV : Nat := 900

/-- Modelled from the spec: `CY_SAR2_INT_GRP_DONE`, the group-done interrupt
status value, comes from the SAR2 driver header, which is not part of this
repository; only its identity (equal or not equal to the delivered status)
matters to the program. -/
def CY_SAR2_INT_GRP_DONE : Nat := 1

/-- Modelled from the spec: `CE_SAR2_AN0_IDX`, the signal (potentiometer)
channel index, comes from the generated BSP configuration, which is not part
of this repository; only its identity matters to the program. -/
def CE_SAR2_AN0_IDX : Nat := 0

/-- Modelled from the spec: `CE_SAR2_VBG_IDX`, the band-gap reference channel
index, comes from the generated BSP configuration, which is not part of this
repository; only its identity matters to the program. -/
def CE_SAR2_VBG_IDX : Nat := 1

/-- The `OUTPUT_FORMAT_STR` label table of main.c. -/
def OUTPUT_FORMAT_STR : List String :=
  ["Unsigned/Right Aligned", "Signed/Right Aligned  ", "Left Aligned          "]

/-- Reading `OUTPUT_FORMAT_STR[fmt]`: a C array access outside the table
(negative or past-the-end index) is undefined behaviour, modelled as `none`. -/
def outputFormatStr (fmt : Int) : Option String :=
  if 0 ≤ fmt then OUTPUT_FORMAT_STR.get? fmt.toNat else none

/-- The result alignment values (`CY_SAR2_RESULT_ALIGNMENT_RIGHT` and
`CY_SAR2_RESULT_ALIGNMENT_LEFT`) programmed by `configure_SAR_ADC`. -/
inductive ResultAlignment where
  | right
  | left
deriving DecidableEq

/-- The sign extension values (`CY_SAR2_SIGN_EXTENTION_UNSIGNED` and
`CY_SAR2_SIGN_EXTENTION_SIGNED`) programmed by `configure_SAR_ADC`. -/
inductive SignExtention where
  | unsigned
  | signed
deriving DecidableEq

/-- Result alignment selected for an output format, from the if/else chain of
main.c lines 275-289 (the final else covers `LEFT_ALIGNED`). -/
def alignmentOf (outputFormat : Int) : ResultAlignment :=
  if outputFormat = UNSIGNED_RIGHT_ALIGNED then ResultAlignment.right
  else if outputFormat = SIGNED_RIGHT_ALIGNED then ResultAlignment.right
  else ResultAlignment.left

/-- Sign extension selected for an output format, from the if/else chain of
main.c lines 275-289 (the final else covers `LEFT_ALIGNED`). -/
def signExtentionOf (outputFormat : Int) : SignExtention :=
  if outputFormat = UNSIGNED_RIGHT_ALIGNED then SignExtention.unsigned
  else if outputFormat = SIGNED_RIGHT_ALIGNED then SignExtention.signed
  else SignExtention.unsigned

/-- Truncated base-2 logarithm by repeated halving, with explicit fuel so the
recursion is structural. -/
def log2fuel : Nat → Nat → Nat
  | 0, _ => 0
  | fuel + 1, n => if 2 ≤ n then log2fuel fuel (n / 2) + 1 else 0

/-- Modelled from the spec: main.c line 272 computes the right-shift exponent
as `(uint8_t)(log(averageCount) / log(2))` with the C library double-precision
`log`, which is not part of this repository and whose rounding the source does
not determine; the spec states the intended value is the base-2 logarithm of
the averaging count, which this definition computes (truncated log2; 32 fuel
covers every value a 32-bit count can take). -/
def rightShiftExp (averageCount : Int) : Nat := log2fuel 32 averageCount.toNat

/-- Observable hardware-driver and console actions performed by the program,
in program order. -/
inductive Action where
  | deInit
  | setChannelConfig (rightShift : Nat) (averageCount : Nat)
      (alignment : ResultAlignment) (signExtention : SignExtention)
  | sarInit
  | setReferenceBufferMode
  | setInterruptMask (channel : Nat) (mask : Nat)
  | sysIntInit
  | nvicSetPriority
  | nvicEnableIRQ
  | softwareTrigger (channel : Nat)
  | getInterruptStatus (channel : Nat)
  | clearInterrupt (channel : Nat) (intr : Nat)
  | getResult (channel : Nat)
  | consolePrint (s : String)
deriving DecidableEq

/-- The active-configuration globals `g_outputFormat` and `g_averageCount`
(main.c lines 80-81). -/
structure AdcState where
  g_outputFormat : Int
  g_averageCount : Int
deriving DecidableEq

/-- Initial values of the active-configuration globals (main.c lines 80-81):
both start at the sentinel `-1` so the first configuration always reprograms. -/
def initialAdcState : AdcState := ⟨-1, -1⟩

/-- `configure_SAR_ADC` (main.c lines 264-310), embedded as a function from
the requested format/count and the active-configuration state to the new
state and the list of actions performed.  When either global differs from the
requested value, the full teardown / channel-config (right-shift exponent,
`(uint16_t)` average count, alignment, sign extension) / re-init / reference
buffer / interrupt re-arm sequence runs; the globals are then updated and the
reference channel software trigger is always issued last. -/
def configure_SAR_ADC (outputFormat averageCount : Int) (s : AdcState) :
    AdcState × List Action :=
  let reconfig : List Action :=
    if s.g_outputFormat ≠ outputFormat ∨ s.g_averageCount ≠ averageCount then
      [Action.deInit,
       Action.setChannelConfig (rightShiftExp averageCount)
         ((averageCount % 65536).toNat) (alignmentOf outputFormat)
         (signExtentionOf outputFormat),
       Action.sarInit,
       Action.setReferenceBufferMode,
       Action.setInterruptMask CE_SAR2_AN0_IDX CY_SAR2_INT_GRP_DONE,
       Action.sysIntInit,
       Action.nvicSetPriority,
       Action.nvicEnableIRQ]
    else []
  (⟨outputFormat, averageCount⟩,
   reconfig ++ [Action.softwareTrigger CE_SAR2_VBG_IDX])

/-- The output-format transform applied to the raw AN0 conversion code in
`handle_SAR_ADC_IRQ` (main.c lines 216-238).  All arithmetic is on `uint16_t`
values; the subtraction happens only when bit 11 is set (no underflow) and
the addition only on a value at most 0x7FF (no overflow), so plain natural
arithmetic is exact. -/
def transformResult (outputFormat : Int) (rawCode : Nat) : Nat :=
  if outputFormat = SIGNED_RIGHT_ALIGNED then
    let m := rawCode &&& 0xFFF
    if m &&& 0x800 ≠ 0 then m - 0x800 else m + 0x800
  else if outputFormat = LEFT_ALIGNED then
    (rawCode >>> 4) &&& 0xFFF
  else
    rawCode

/-- The voltage computation of main.c line 243:
`((uint32_t)resultAN0 * BAND_GAP_MV) / (uint32_t)resultVBG`, with the
`uint32_t` product reduced modulo 2^32 and `none` when the divisor is zero
(C unsigned division by zero is undefined behaviour). -/
def potentiometerMillivolt (resultAN0 resultVBG : Nat) : Option Nat :=
  if resultVBG = 0 then none
  else some (resultAN0 * BAND_GAP_MV % 4294967296 / resultVBG)

/-- `handle_SAR_ADC_IRQ` (main.c lines 202-248).  Inputs are the delivered
interrupt status, the two channel results, and the pending-configuration
globals; the output is `none` when the handler would hit undefined behaviour
(label table index out of range, division by zero), otherwise the new
active-configuration state and the action/console trace.  A status other than
group-done only reads and acknowledges the interrupt source. -/
def handle_SAR_ADC_IRQ (intr resultVBG resultAN0_raw : Nat)
    (g_nextOutputFormat g_nextAverageCount : Int) (s : AdcState) :
    Option (AdcState × List Action) :=
  let pre := [Action.getInterruptStatus CE_SAR2_AN0_IDX,
              Action.clearInterrupt CE_SAR2_AN0_IDX intr]
  if intr = CY_SAR2_INT_GRP_DONE then
    let resultAN0 := transformResult s.g_outputFormat resultAN0_raw
    match outputFormatStr s.g_outputFormat,
          potentiometerMillivolt resultAN0 resultVBG with
    | some label, some mv =>
      let prints :=
        [Action.consolePrint ("Output format: " ++ label ++
           "\r\nAverage count: " ++ toString s.g_averageCount ++ "\r\n"),
         Action.consolePrint ("Conversion result raw value: 0x" ++
           toString resultAN0_raw ++ "\r\n"),
         Action.consolePrint ("Potentiometer voltage: " ++ toString mv ++
           "mV\r\n"),
         Action.consolePrint "\x1b[4F"]
      let next := configure_SAR_ADC g_nextOutputFormat g_nextAverageCount s
      some (next.1,
        pre ++ [Action.getResult CE_SAR2_VBG_IDX,
                Action.getResult CE_SAR2_AN0_IDX] ++ prints ++ next.2)
    | _, _ => none
  else
    some (s, pre)

/-- The pending-configuration globals `g_nextOutputFormat` and
`g_nextAverageCount` (main.c lines 78-79). -/
structure PendingState where
  g_nextOutputFormat : Int
  g_nextAverageCount : Int
deriving DecidableEq

/-- Initial pending configuration (main.c lines 78-79): format
`UNSIGNED_RIGHT_ALIGNED`, average count 1. -/
def initialPendingState : PendingState := ⟨0, 1⟩

/-- One iteration of the command-intake loop body (main.c lines 159-182)
applied to one received byte; 97, 100 and 115 are the byte values of the a, d
and s commands.  The arithmetic shifts on the count (always positive here)
are division and multiplication by two. -/
def commandStep (s : PendingState) (uartReadValue : Nat) : PendingState :=
  if uartReadValue = 97 ∨ uartReadValue = 100 then
    if uartReadValue = 97 ∧ s.g_nextAverageCount ≠ AVERAGE_COUNT_MIN then
      { s with g_nextAverageCount := s.g_nextAverageCount / 2 }
    else if uartReadValue = 100 ∧ s.g_nextAverageCount ≠ AVERAGE_COUNT_MAX then
      { s with g_nextAverageCount := s.g_nextAverageCount * 2 }
    else s
  else if uartReadValue = 115 then
    { s with g_nextOutputFormat :=
        if s.g_nextOutputFormat + 1 > LEFT_ALIGNED then UNSIGNED_RIGHT_ALIGNED
        else s.g_nextOutputFormat + 1 }
  else s

/-- The pending average count is one of the nine powers of two the program
can reach. -/
def goodCount (c : Int) : Prop :=
  c ∈ ([1, 2, 4, 8, 16, 32, 64, 128, 256] : List Int)

instance goodCountDecidable (c : Int) : Decidable (goodCount c) := by
  unfold goodCount
  infer_instance

lemma and_4095_eq_mod (m : Nat) : m &&& 4095 = m % 4096 := by
  have h : (4095 : Nat) = 2 ^ 12 - 1 := by norm_num
  rw [h, Nat.and_pow_two_sub_one_eq_mod]

lemma and_2048_ne_zero_iff (m : Nat) (h : m < 4096) :
    m &&& 2048 ≠ 0 ↔ 2048 ≤ m := by
  have h1 := Nat.and_two_pow m 11
  have h2 : m.testBit 11 = decide (m / 2 ^ 11 % 2 = 1) := Nat.testBit_to_div_mod
  norm_num at h1 h2
  by_cases hb : m.testBit 11 = true
  · rw [hb] at h1 h2
    simp only [Bool.toNat_true, one_mul] at h1
    have h3 : m / 2048 % 2 = 1 := of_decide_eq_true h2.symm
    rw [h1]
    omega
  · have hb2 : m.testBit 11 = false := by simpa using hb
    rw [hb2] at h1 h2
    simp only [Bool.toNat_false, zero_mul] at h1
    have h3 : ¬ (m / 2048 % 2 = 1) := of_decide_eq_false h2.symm
    rw [h1]
    omega

lemma transformResult_signed (rawCode : Nat) :
    transformResult SIGNED_RIGHT_ALIGNED rawCode =
      (if 2048 ≤ rawCode % 4096 then rawCode % 4096 - 2048
       else rawCode % 4096 + 2048) := by
  have hm : rawCode % 4096 < 4096 := Nat.mod_lt _ (by norm_num)
  have e1 : transformResult SIGNED_RIGHT_ALIGNED rawCode =
      (if (rawCode &&& 4095) &&& 2048 ≠ 0 then (rawCode &&& 4095) - 2048
       else (rawCode &&& 4095) + 2048) := by
    simp [transformResult]
  rw [e1, and_4095_eq_mod]
  by_cases hc : 2048 ≤ rawCode % 4096
  · rw [if_pos ((and_2048_ne_zero_iff _ hm).mpr hc), if_pos hc]
  · rw [if_neg (fun hcc => hc ((and_2048_ne_zero_iff _ hm).mp hcc)), if_neg hc]

/-- Claim C1: the raw code of a completed group-done conversion is transformed
according to the active output format: under `SIGNED_RIGHT_ALIGNED` the code
is masked to 12 bits and re-centered by subtracting 0x800 when bit 11 is set
and adding 0x800 when it is clear, so 0x800 maps to 0; under `LEFT_ALIGNED`
the result is `(rawCode >>> 4) &&& 0xFFF`, i.e. division by 16 then a 12-bit
mask, so 0x8000 maps to 0x800; under `UNSIGNED_RIGHT_ALIGNED` the raw code is
unmodified. -/
theorem c1_output_format_transform (rawCode : Nat) :
    transformResult UNSIGNED_RIGHT_ALIGNED rawCode = rawCode
  ∧ transformResult LEFT_ALIGNED rawCode = rawCode / 16 % 4096
  ∧ transformResult SIGNED_RIGHT_ALIGNED rawCode =
      (if 2048 ≤ rawCode % 4096 then rawCode % 4096 - 2048
       else rawCode % 4096 + 2048)
  ∧ transformResult SIGNED_RIGHT_ALIGNED 2048 = 0
  ∧ transformResult LEFT_ALIGNED 32768 = 2048 := by
  refine ⟨?_, ?_, transformResult_signed rawCode, by decide, by decide⟩
  · simp [transformResult, UNSIGNED_RIGHT_ALIGNED, SIGNED_RIGHT_ALIGNED,
      LEFT_ALIGNED]
  · have e1 : transformResult LEFT_ALIGNED rawCode =
        (rawCode >>> 4) &&& 4095 := by
      simp [transformResult, LEFT_ALIGNED, SIGNED_RIGHT_ALIGNED]
    rw [e1, and_4095_eq_mod, Nat.shiftRight_eq_div_pow]

/-- Claim C4: the displayed millivolt value is the truncating integer
division `transformedCode * 900 / referenceCode`; the `uint32_t` product
never wraps for a 16-bit code, and 0x400 against reference 1024 yields
exactly 900. -/
theorem c4_millivolt_formula (t r : Nat) (ht : t < 65536) (hr : r ≠ 0) :
    potentiometerMillivolt t r = some (t * 900 / r)
  ∧ potentiometerMillivolt 1024 1024 = some 900 := by
  constructor
  · have hb : BAND_GAP_MV = 900 := rfl
    simp only [potentiometerMillivolt, hb, if_neg hr]
    have hlt : t * 900 < 4294967296 := by omega
    rw [Nat.mod_eq_of_lt hlt]
  · decide

theorem c4_witness : potentiometerMillivolt 1024 1024 = some (1024 * 900 / 1024) :=
  (c4_millivolt_formula 1024 1024 (by decide) (by decide)).1

/-- Claim C10: the millivolt computation is guarded by nothing: whenever the
reference code is nonzero it is well-defined and equals the truncating
`uint32_t` formula, and a zero reference code is a division by zero
(undefined behaviour, modelled as `none`), so `referenceCode ≠ 0` is a
necessary precondition. -/
theorem c10_reference_code_nonzero_required (t r : Nat) (hr : r ≠ 0) :
    potentiometerMillivolt t r = some (t * BAND_GAP_MV % 4294967296 / r)
  ∧ potentiometerMillivolt t 0 = none := by
  constructor
  · simp [potentiometerMillivolt, hr]
  · simp [potentiometerMillivolt]

theorem c10_witness : potentiometerMillivolt 5 0 = none :=
  (c10_reference_code_nonzero_required 5 3 (by decide)).2

/-- Claim C8: an interrupt status other than group-done makes the handler
read and acknowledge the interrupt source and return: no result is read, no
line is rendered, no reconfiguration happens, and the active-configuration
state is unchanged. -/
theorem c8_foreign_interrupt_ignored (intr resultVBG resultAN0_raw : Nat)
    (nf nc : Int) (s : AdcState) (h : intr ≠ CY_SAR2_INT_GRP_DONE) :
    handle_SAR_ADC_IRQ intr resultVBG resultAN0_raw nf nc s =
      some (s, [Action.getInterruptStatus CE_SAR2_AN0_IDX,
                Action.clearInterrupt CE_SAR2_AN0_IDX intr]) := by
  simp [handle_SAR_ADC_IRQ, h]

theorem c8_witness :
    handle_SAR_ADC_IRQ 0 512 512 0 1 ⟨0, 1⟩ =
      some (⟨0, 1⟩, [Action.getInterruptStatus CE_SAR2_AN0_IDX,
                     Action.clearInterrupt CE_SAR2_AN0_IDX 0]) :=
  c8_foreign_interrupt_ignored 0 512 512 0 1 ⟨0, 1⟩ (by decide)

/-- Claim C2: reconfiguring with the pending configuration equal to the
active one performs none of the teardown / exponent / init / re-arm / adopt
actions and leaves the state unchanged, yet every invocation, equal or not,
ends with the software trigger of the reference channel as its terminal
action. -/
theorem c2_noop_when_config_unchanged (outputFormat averageCount : Int)
    (s : AdcState) (h : s.g_outputFormat = outputFormat ∧
      s.g_averageCount = averageCount) :
    configure_SAR_ADC outputFormat averageCount s =
      (s, [Action.softwareTrigger CE_SAR2_VBG_IDX])
  ∧ ∀ (f c : Int) (t : AdcState),
      (configure_SAR_ADC f c t).2.getLast? =
        some (Action.softwareTrigger CE_SAR2_VBG_IDX) := by
  obtain ⟨h1, h2⟩ := h
  constructor
  · obtain ⟨a, b⟩ := s
    simp only at h1 h2
    subst h1
    subst h2
    simp [configure_SAR_ADC]
  · intro f c t
    by_cases hc : t.g_outputFormat ≠ f ∨ t.g_averageCount ≠ c
    · simp only [configure_SAR_ADC, if_pos hc]
      rw [List.getLast?_concat]
    · simp only [configure_SAR_ADC, if_neg hc]
      rw [List.nil_append, List.getLast?_singleton]

theorem c2_witness :
    configure_SAR_ADC 0 4 ⟨0, 4⟩ = (⟨0, 4⟩, [Action.softwareTrigger CE_SAR2_VBG_IDX]) :=
  (c2_noop_when_config_unchanged 0 4 ⟨0, 4⟩ ⟨rfl, rfl⟩).1

/-- Claim C3: when the pending configuration differs from the active one in
either field, the reconfiguration performs, in this exact order and with
nothing skipped: teardown, the channel-config step carrying the right-shift
exponent and the alignment/sign-extension chosen by the format table
(unsigned-right → right/unsigned, signed-right → right/signed, left →
left/unsigned), re-init, reference-buffer and group-done interrupt re-arm,
then adopts the pending values as active state and issues the trigger; the
spec's example count of 8 yields exponent 3. -/
theorem c3_reconfig_action_order (outputFormat averageCount : Int)
    (s : AdcState) (h : s.g_outputFormat ≠ outputFormat ∨
      s.g_averageCount ≠ averageCount) :
    configure_SAR_ADC outputFormat averageCount s =
      (⟨outputFormat, averageCount⟩,
       [Action.deInit,
        Action.setChannelConfig (rightShiftExp averageCount)
          ((averageCount % 65536).toNat) (alignmentOf outputFormat)
          (signExtentionOf outputFormat),
        Action.sarInit,
        Action.setReferenceBufferMode,
        Action.setInterruptMask CE_SAR2_AN0_IDX CY_SAR2_INT_GRP_DONE,
        Action.sysIntInit,
        Action.nvicSetPriority,
        Action.nvicEnableIRQ,
        Action.softwareTrigger CE_SAR2_VBG_IDX])
  ∧ alignmentOf UNSIGNED_RIGHT_ALIGNED = ResultAlignment.right
  ∧ signExtentionOf UNSIGNED_RIGHT_ALIGNED = SignExtention.unsigned
  ∧ alignmentOf SIGNED_RIGHT_ALIGNED = ResultAlignment.right
  ∧ signExtentionOf SIGNED_RIGHT_ALIGNED = SignExtention.signed
  ∧ alignmentOf LEFT_ALIGNED = ResultAlignment.left
  ∧ signExtentionOf LEFT_ALIGNED = SignExtention.unsigned
  ∧ rightShiftExp 8 = 3 := by
  refine ⟨?_, by decide, by decide, by decide, by decide, by decide, by decide,
    by decide⟩
  simp only [configure_SAR_ADC, if_pos h]
  rfl

theorem c3_witness :
    configure_SAR_ADC 1 8 ⟨0, 1⟩ =
      (⟨1, 8⟩,
       [Action.deInit,
        Action.setChannelConfig 3 8 ResultAlignment.right SignExtention.signed,
        Action.sarInit,
        Action.setReferenceBufferMode,
        Action.setInterruptMask CE_SAR2_AN0_IDX CY_SAR2_INT_GRP_DONE,
        Action.sysIntInit,
        Action.nvicSetPriority,
        Action.nvicEnableIRQ,
        Action.softwareTrigger CE_SAR2_VBG_IDX]) := by
  have h := (c3_reconfig_action_order 1 8 ⟨0, 1⟩ (Or.inl (by decide))).1
  rw [h]
  decide

lemma commandStep_count_cases (s : PendingState) (b : Nat) :
    (commandStep s b).g_nextAverageCount = s.g_nextAverageCount
  ∨ (s.g_nextAverageCount ≠ 1 ∧
      (commandStep s b).g_nextAverageCount = s.g_nextAverageCount / 2)
  ∨ (s.g_nextAverageCount ≠ 256 ∧
      (commandStep s b).g_nextAverageCount = s.g_nextAverageCount * 2) := by
  unfold commandStep AVERAGE_COUNT_MIN AVERAGE_COUNT_MAX
  split
  · split
    · next hcond => exact Or.inr (Or.inl ⟨hcond.2, rfl⟩)
    · split
      · next hcond => exact Or.inr (Or.inr ⟨hcond.2, rfl⟩)
      · exact Or.inl rfl
  · split
    · exact Or.inl rfl
    · exact Or.inl rfl

lemma commandStep_preserves_goodCount (s : PendingState) (b : Nat)
    (h : goodCount s.g_nextAverageCount) :
    goodCount (commandStep s b).g_nextAverageCount := by
  obtain ⟨f, c⟩ := s
  rcases commandStep_count_cases ⟨f, c⟩ b with hc | ⟨hne, hc⟩ | ⟨hne, hc⟩ <;>
    rw [hc]
  · exact h
  · unfold goodCount at h ⊢
    simp only [List.mem_cons, List.not_mem_nil, or_false] at h ⊢
    rcases h with rfl|rfl|rfl|rfl|rfl|rfl|rfl|rfl|rfl <;>
      first
        | exact absurd rfl hne
        | decide
  · unfold goodCount at h ⊢
    simp only [List.mem_cons, List.not_mem_nil, or_false] at h ⊢
    rcases h with rfl|rfl|rfl|rfl|rfl|rfl|rfl|rfl|rfl <;>
      first
        | exact absurd rfl hne
        | decide

lemma foldl_commandStep_goodCount (bytes : List Nat) (s : PendingState)
    (h : goodCount s.g_nextAverageCount) :
    goodCount ((bytes.foldl commandStep s).g_nextAverageCount) := by
  induction bytes generalizing s with
  | nil => exact h
  | cons b bs ih => exact ih _ (commandStep_preserves_goodCount s b h)

/-- Claim C6: starting from the default pending average count 1, after any
sequence of input bytes the pending count is one of the powers of two in
[1, 256]; moreover on such counts the a command (byte 97) halves the count
unless it is 1 and the d command (byte 100) doubles it unless it is 256, so
the count never leaves [1, 256]. -/
theorem c6_average_count_invariant :
    (∀ bytes : List Nat,
       goodCount ((bytes.foldl commandStep initialPendingState).g_nextAverageCount))
  ∧ ∀ s : PendingState, goodCount s.g_nextAverageCount →
      ((commandStep s 97).g_nextAverageCount =
        (if s.g_nextAverageCount = 1 then s.g_nextAverageCount
         else s.g_nextAverageCount / 2))
    ∧ ((commandStep s 100).g_nextAverageCount =
        (if s.g_nextAverageCount = 256 then s.g_nextAverageCount
         else s.g_nextAverageCount * 2))
    ∧ 1 ≤ (commandStep s 97).g_nextAverageCount
    ∧ (commandStep s 100).g_nextAverageCount ≤ 256 := by
  constructor
  · intro bytes
    exact foldl_commandStep_goodCount bytes initialPendingState (by decide)
  · intro s h
    obtain ⟨f, c⟩ := s
    unfold goodCount at h
    simp only [List.mem_cons, List.not_mem_nil, or_false] at h
    rcases h with rfl|rfl|rfl|rfl|rfl|rfl|rfl|rfl|rfl <;>
      refine ⟨?_, ?_, ?_, ?_⟩ <;>
        norm_num [commandStep, AVERAGE_COUNT_MIN, AVERAGE_COUNT_MAX]

theorem c6_witness :
    (commandStep ⟨0, 4⟩ 97).g_nextAverageCount =
      (if (4 : Int) = 1 then (4 : Int) else 4 / 2) :=
  ((c6_average_count_invariant).2 ⟨0, 4⟩ (by decide)).1

/-- Claim C7: the s command (byte 115) advances the pending output format to
the next variant of the closed three-element set, wrapping from
`LEFT_ALIGNED` back to `UNSIGNED_RIGHT_ALIGNED`, and applying it three times
returns to the starting variant. -/
theorem c7_format_cycle (s : PendingState)
    (h : s.g_nextOutputFormat ∈ ([0, 1, 2] : List Int)) :
    (commandStep s 115).g_nextOutputFormat =
      (if s.g_nextOutputFormat = LEFT_ALIGNED then UNSIGNED_RIGHT_ALIGNED
       else s.g_nextOutputFormat + 1)
  ∧ (commandStep s 115).g_nextOutputFormat ∈ ([0, 1, 2] : List Int)
  ∧ (commandStep (commandStep (commandStep s 115) 115) 115).g_nextOutputFormat
      = s.g_nextOutputFormat := by
  obtain ⟨f, c⟩ := s
  simp only [List.mem_cons, List.not_mem_nil, or_false] at h
  rcases h with rfl|rfl|rfl <;> refine ⟨?_, ?_, ?_⟩ <;>
    norm_num [commandStep, LEFT_ALIGNED, UNSIGNED_RIGHT_ALIGNED]

theorem c7_witness :
    (commandStep (commandStep (commandStep ⟨2, 1⟩ 115) 115) 115).g_nextOutputFormat
      = (2 : Int) :=
  (c7_format_cycle ⟨2, 1⟩ (by decide)).2.2

/-- Claim C9 (divergence): the raw-code console line of the completion
handler prints the raw code with an unsigned DECIMAL conversion after a
literal 0x prefix (`"0x%" PRIu16` in main.c line 242): for raw code 2576
(hexadecimal A10) the rendered line is `Conversion result raw value: 0x2576`,
whose digits after the 0x prefix are the decimal digits of 2576, while the
hexadecimal digits of 2576 are a10; the rest of the render (format label
line, average count line, raw-code line showing the untransformed code,
millivolt line, cursor reposition, trailing trigger) is as specified. -/
theorem c9_raw_value_printed_in_decimal :
    handle_SAR_ADC_IRQ CY_SAR2_INT_GRP_DONE 1024 2576 0 1 ⟨0, 1⟩ =
      some (⟨0, 1⟩,
        [Action.getInterruptStatus CE_SAR2_AN0_IDX,
         Action.clearInterrupt CE_SAR2_AN0_IDX CY_SAR2_INT_GRP_DONE,
         Action.getResult CE_SAR2_VBG_IDX,
         Action.getResult CE_SAR2_AN0_IDX,
         Action.consolePrint "Output format: Unsigned/Right Aligned\r\nAverage count: 1\r\n",
         Action.consolePrint "Conversion result raw value: 0x2576\r\n",
         Action.consolePrint "Potentiometer voltage: 2264mV\r\n",
         Action.consolePrint "\x1b[4F",
         Action.softwareTrigger CE_SAR2_VBG_IDX])
  ∧ Nat.toDigits 16 2576 = ['a', '1', '0'] := by
  constructor
  · rfl
  · rfl
